import Mathlib

/-!
Verification of the scamlikely-api entity-resolution and report/dispute
lifecycle core (src/app.py) against its natural-language specification.

The state of the service is two in-memory stores, `ENTITIES` and `REPORTS`
(Python dicts keyed by id, enumerated in insertion order); they are embedded
here as insertion-ordered lists of records.  Values drawn from JSON request
bodies (`incident_location : Dict[str, Any]`) are embedded as `JVal`, with
Python truthiness made explicit, because the handlers test such values with
`if not x:` rather than by key presence.  Generated uuid strings and
timestamps are nondeterministic in the source, so the operations take them
as explicit parameters.
-/

namespace ScamLikely

/-- A JSON value as stored in a Python `Dict[str, Any]` parsed from a request
body: null, booleans, integers, strings, arrays and objects. -/
inductive JVal where
  | null : JVal
  | bool : Bool → JVal
  | num : Int → JVal
  | str : String → JVal
  | arr : List JVal → JVal
  | obj : List (String × JVal) → JVal

/-- Python truthiness of a JSON value: `None`, `False`, `0`, `""`, `[]` and
`\x7b\x7d` are falsy, everything else is truthy. -/
def JVal.truthy : JVal → Bool
  | .null => false
  | .bool b => b
  | .num n => !(n == 0)
  | .str s => !(s == "")
  | .arr xs => !xs.isEmpty
  | .obj kvs => !kvs.isEmpty

/-- Python truthiness of `d.get(k)`: an absent key yields `None`, which is
falsy. -/
def truthyOpt : Option JVal → Bool
  | none => false
  | some v => v.truthy

/-- Embedding of `dict.get(k)` on a JSON object body (first binding wins;
Python dicts cannot hold duplicate keys). -/
def getKey (loc : List (String × JVal)) (k : String) : Option JVal :=
  (loc.find? (fun kv => kv.fst == k)).map (fun kv => kv.snd)

/-- An entity record as stored in `ENTITIES` (src/app.py lines 25-35 and
148-156).  `top_identifier` and `report_count` are optional because the
entities created by `create_report` do not carry those keys. -/
structure Entity where
  id : String
  display_name : String
  type : String
  top_identifier : Option String
  phones : List String
  emails : List String
  state : Option JVal
  city : Option JVal
  report_count : Option Nat

/-- A report record as stored in `REPORTS` (src/app.py lines 37-49 and
160-173). -/
structure Report where
  id : String
  entity_id : String
  category : String
  narrative : String
  amount_cents : Option Int
  incident_date : Option String
  incident_mode : String
  incident_location : List (String × JVal)
  reporter_public_anonymous : Bool
  status : String
  reporter_email : Option String
  created_at : String

/-- The `identifiers` field of the `ReportCreate` schema (src/app.py lines
52-58). -/
structure Identifiers where
  gov_name : Option String
  business_name : Option String
  phones : List String
  emails : List String
  handles : List String
  websites : List String

/-- The `ReportCreate` request schema (src/app.py lines 60-70).
`incident_mode` is kept as a plain string so that the handler's own
`else` branch for unrecognized modes stays in the model. -/
structure ReportCreate where
  identifiers : Identifiers
  category : String
  narrative : String
  amount_cents : Option Int
  currency : String
  incident_date : Option String
  incident_mode : String
  incident_location : List (String × JVal)
  reporter_public_anonymous : Bool
  reporter_email : Option String

/-- The two in-memory stores, in insertion order (src/app.py lines 19-20). -/
structure AppState where
  entities : List Entity
  reports : List Report

/-- Errors raised by the handlers: HTTP 400 with a detail message
(`ValidationError`) and HTTP 404 (`NotFoundError`). -/
inductive ApiError where
  | validation : String → ApiError
  | notFound : String → ApiError

/-- The seeded entity `demo-1` (src/app.py lines 24-35). -/
def seedEntity : Entity :=
  { id := "demo-1"
    display_name := "ABC Web Solutions"
    type := "business"
    top_identifier := some "+1 (443) 555-0123"
    phones := ["+14435550123"]
    emails := ["owner@abcweb.co"]
    state := some (.str "MD")
    city := some (.str "Baltimore")
    report_count := some 1 }

/-- The seeded published report (src/app.py lines 36-49).  Its uuid and
timestamp are nondeterministic in the source and are embedded as fixed
placeholder strings. -/
def seedReport : Report :=
  { id := "seed-report"
    entity_id := "demo-1"
    category := "Non-delivery"
    narrative := "Paid 500 dollars for a website; after 6 weeks nothing delivered."
    amount_cents := some 50000
    incident_date := some "2025-08-20"
    incident_mode := "digital"
    incident_location :=
      [("scammer_origin", .obj [("city", .str "Baltimore"), ("state", .str "MD"),
                                ("country", .str "US")])]
    reporter_public_anonymous := true
    status := "published"
    reporter_email := none
    created_at := "2025-10-01T00:00:00Z" }

/-- The store contents at process start (src/app.py lines 22-49). -/
def seedState : AppState :=
  { entities := [seedEntity], reports := [seedReport] }

/-- The location validation at the top of `create_report` (src/app.py lines
126-137).  Note the checks use Python truthiness: `if not origin and not
unknown`, and `all([...])` over the three in-person fields. -/
def locationError (p : ReportCreate) : Option ApiError :=
  if p.incident_mode == "digital" then
    let origin := getKey p.incident_location "scammer_origin"
    let unknown := getKey p.incident_location "unknown"
    if !truthyOpt origin && !truthyOpt unknown then
      some (.validation "For digital incidents, include incident_location.scammer_origin or set unknown=true.")
    else none
  else if p.incident_mode == "in_person" then
    if !(truthyOpt (getKey p.incident_location "city")
         && truthyOpt (getKey p.incident_location "state")
         && truthyOpt (getKey p.incident_location "country")) then
      some (.validation "For in-person incidents, city/state/country are required.")
    else none
  else
    some (.validation "incident_mode must be digital or in_person.")

/-- Python `a or dflt` on an `Optional[str]`: an absent or empty string
falls through to the default. -/
def pyOrStr (a : Option String) (dflt : String) : String :=
  match a with
  | none => dflt
  | some s => if s == "" then dflt else s

/-- Python truthiness of an `Optional[str]`. -/
def strTruthy : Option String → Bool
  | none => false
  | some s => !(s == "")

/-- The entity-match test of the resolver loop (src/app.py lines 143-144):
any submitted phone is contained (exact, case-sensitive) in the entity's
phone list, or any submitted email is contained case-insensitively in the
entity's email list. -/
def matchesEntity (ids : Identifiers) (e : Entity) : Bool :=
  ids.phones.any (fun p => e.phones.contains p)
  || ids.emails.any (fun m => (e.emails.map String.toLower).contains m.toLower)

/-- The resolver lookup (src/app.py lines 141-145): scan `ENTITIES` in
enumeration (insertion) order and return the id of the first match. -/
def lookupEntity (es : List Entity) (ids : Identifiers) : Option String :=
  (es.find? (fun e => matchesEntity ids e)).map Entity.id

/-- The entity created when no existing entity matches (src/app.py lines
146-156): `display_name = business_name or gov_name or "Unknown"`, `type`
from the truthiness of `business_name`, contacts copied from the submission,
`state`/`city` read from the top level of `incident_location`. -/
def mkNewEntity (p : ReportCreate) (eid : String) : Entity :=
  { id := eid
    display_name := pyOrStr p.identifiers.business_name (pyOrStr p.identifiers.gov_name "Unknown")
    type := if strTruthy p.identifiers.business_name then "business" else "person"
    top_identifier := none
    phones := p.identifiers.phones
    emails := p.identifiers.emails
    state := getKey p.incident_location "state"
    city := getKey p.incident_location "city"
    report_count := none }

/-- The report record inserted by `create_report` (src/app.py lines
159-173). -/
def mkReport (p : ReportCreate) (eid rid now : String) : Report :=
  { id := rid
    entity_id := eid
    category := p.category
    narrative := p.narrative
    amount_cents := p.amount_cents
    incident_date := p.incident_date
    incident_mode := p.incident_mode
    incident_location := p.incident_location
    reporter_public_anonymous := p.reporter_public_anonymous
    status := "pending"
    reporter_email := p.reporter_email
    created_at := now }

/-- `POST /v1/reports` = `create_report` (src/app.py lines 123-174):
validate the location rules, resolve or create the entity, insert a
`pending` report, and return the new report id and the resolved entity id.
The generated uuids and the timestamp are passed in as `freshEid`,
`freshRid` and `now`. -/
def create_report (s : AppState) (p : ReportCreate) (freshEid freshRid now : String) :
    Except ApiError (AppState × String × String) :=
  match locationError p with
  | some err => .error err
  | none =>
    match lookupEntity s.entities p.identifiers with
    | some i =>
      .ok ({ s with reports := s.reports ++ [mkReport p i freshRid now] }, freshRid, i)
    | none =>
      .ok ({ entities := s.entities ++ [mkNewEntity p freshEid],
             reports := s.reports ++ [mkReport p freshEid freshRid now] },
           freshRid, freshEid)

/-- The aggregate recomputed by `publish_report` (src/app.py lines 192-194):
the number of reports of the entity whose status is `published`. -/
def countPublished (rs : List Report) (eid : String) : Nat :=
  (rs.filter (fun r => r.entity_id == eid && r.status == "published")).length

/-- `POST /v1/reports/\x7bid\x7d/publish` = `publish_report` (src/app.py lines
184-195): 404 if the report id is unknown; otherwise set the report's status
to `published` unconditionally, then recompute the owning entity's
`report_count` (if that entity exists) over the updated reports. -/
def publish_report (s : AppState) (rid : String) : Except ApiError (AppState × String) :=
  match s.reports.find? (fun r => r.id == rid) with
  | none => .error (.notFound "report not found")
  | some r =>
    let reports' := s.reports.map (fun rr =>
      if rr.id == rid then { rr with status := "published" } else rr)
    let entities' :=
      match s.entities.find? (fun e => e.id == r.entity_id) with
      | none => s.entities
      | some _ =>
        s.entities.map (fun e =>
          if e.id == r.entity_id then
            { e with report_count := some (countPublished reports' e.id) }
          else e)
    .ok ({ entities := entities', reports := reports' }, "published")

/-- A visible report counts toward listings when its status is `published`
or `disputed` (src/app.py lines 82-83). -/
def countVisible (rs : List Report) (eid : String) : Nat :=
  (rs.filter (fun r => r.entity_id == eid
      && (r.status == "published" || r.status == "disputed"))).length

/-- One row of the `recent-entities` response (src/app.py lines 85-93). -/
structure RecentItem where
  id : String
  display_name : String
  top_identifier : String
  state : Option JVal
  city : Option JVal
  report_count : Nat
  status : String

/-- The `top_identifier` fallback chain of the listing row (src/app.py line
88): `e.get("top_identifier") or (e.get("phones") or e.get("emails") or [""])[0]`,
with Python truthiness at each `or`. -/
def topIdentifierOf (e : Entity) : String :=
  let fallback :=
    match e.phones with
    | p :: _ => p
    | [] =>
      match e.emails with
      | m :: _ => m
      | [] => ""
  match e.top_identifier with
  | some t => if t == "" then fallback else t
  | none => fallback

/-- `GET /v1/recent-entities` = `recent_entities` (src/app.py lines 78-94):
for each entity, count its visible reports and emit a row only when the
count is nonzero. -/
def recent_entities (s : AppState) : List RecentItem :=
  s.entities.filterMap (fun e =>
    let count := countVisible s.reports e.id
    if count == 0 then none
    else some { id := e.id
                display_name := e.display_name
                top_identifier := topIdentifierOf e
                state := e.state
                city := e.city
                report_count := count
                status := "published" })

/-- A dispute record.  Modelled from the spec: the Dispute Manager (spec
section 4.4) is part of this repository but its source is not under src/;
fields follow the spec's data model for Dispute (id, report_id, entity_id
copied from the report, contact_email, trimmed text, public_anonymous,
status `open`, created_at). -/
structure Dispute where
  id : String
  report_id : String
  entity_id : String
  contact_email : String
  text : String
  public_anonymous : Bool
  status : String
  created_at : String

/-- Modelled from the spec: the Dispute Manager's
`open(report_id, contact_email, text, public_anonymous)` operation (spec
section 4.4), whose source is not under src/.  It fails `NotFoundError` if
the report id is unknown; otherwise it trims the text, inserts a Dispute
with status `open`, `entity_id` copied from the report and `created_at`
set to now, and sets the parent report's status to `disputed`
unconditionally, regardless of prior status. -/
def open_dispute (s : AppState) (ds : List Dispute)
    (did rid contact_email text : String) (public_anonymous : Bool) (now : String) :
    Except ApiError (AppState × List Dispute × String) :=
  match s.reports.find? (fun r => r.id == rid) with
  | none => .error (.notFound "report not found")
  | some r =>
    let d : Dispute :=
      { id := did
        report_id := rid
        entity_id := r.entity_id
        contact_email := contact_email
        text := text.trim
        public_anonymous := public_anonymous
        status := "open"
        created_at := now }
    let reports' := s.reports.map (fun rr =>
      if rr.id == rid then { rr with status := "disputed" } else rr)
    .ok ({ s with reports := reports' }, ds ++ [d], did)

/-! ## Helper lemmas -/

/-- `find?` commutes with a map that does not change the predicate's verdict. -/
theorem find?_map_self {α : Type u} (l : List α) (f : α → α) (p : α → Bool)
    (hf : ∀ x, p (f x) = p x) : (l.map f).find? p = (l.find? p).map f := by
  induction l with
  | nil => rfl
  | cons a t ih =>
    by_cases hp : p a = true
    · simp [List.find?_cons, hp, hf a]
    · have hp' : p a = false := by simpa using hp
      simp [List.find?_cons, hp', hf a, ih]

/-! ## Claim C7: lookup semantics -/

/-- Spec-level statement of the resolver's match test: some submitted phone
occurs verbatim in the entity's phone list, or some submitted email occurs
case-insensitively in the entity's email list. -/
def specMatches (ids : Identifiers) (e : Entity) : Prop :=
  (∃ p, p ∈ ids.phones ∧ p ∈ e.phones) ∨
  (∃ m, m ∈ ids.emails ∧ m.toLower ∈ e.emails.map String.toLower)

/-- C7: entity lookup tests exact case-sensitive membership of each submitted
phone in each entity's phone list and case-insensitive membership of each
submitted email in each entity's email list, and returns the first entity in
enumeration order for which any phone or any email matches (`lookupEntity`
is a pure function of the store, so it modifies no state). -/
theorem c7_lookup_first_match (es : List Entity) (ids : Identifiers) :
    (∀ e, matchesEntity ids e = true ↔ specMatches ids e) ∧
    (lookupEntity es ids = none ↔ ∀ e ∈ es, ¬ specMatches ids e) ∧
    (∀ i, lookupEntity es ids = some i ↔
      ∃ before e after, es = before ++ e :: after ∧ i = e.id ∧
        specMatches ids e ∧ ∀ x ∈ before, ¬ specMatches ids x) := by
  have hmatch : ∀ e, matchesEntity ids e = true ↔ specMatches ids e := by
    intro e
    simp [matchesEntity, specMatches, List.any_eq_true]
  refine ⟨hmatch, ?_, ?_⟩
  · rw [lookupEntity, Option.map_eq_none', List.find?_eq_none]
    constructor
    · intro h e he hs
      exact h e he ((hmatch e).mpr hs)
    · intro h e he hm
      exact h e he ((hmatch e).mp hm)
  · intro i
    rw [lookupEntity, Option.map_eq_some']
    constructor
    · rintro ⟨e, hfind, hid⟩
      rcases List.find?_eq_some.mp hfind with ⟨hpe, before, after, heq, hbef⟩
      refine ⟨before, e, after, heq, hid.symm, (hmatch e).mp hpe, ?_⟩
      intro x hx hs
      have hfalse := hbef x hx
      simp at hfalse
      rw [(hmatch x).mpr hs] at hfalse
      cases hfalse
    · rintro ⟨before, e, after, heq, hid, hs, hbef⟩
      refine ⟨e, ?_, hid.symm⟩
      apply List.find?_eq_some.mpr
      refine ⟨(hmatch e).mpr hs, before, after, heq, ?_⟩
      intro x hx
      simp
      cases hmx : matchesEntity ids x
      · rfl
      · exact absurd ((hmatch x).mp hmx) (hbef x hx)

/-- Witness for C7 at the seeded store: looking up the seed entity's phone
resolves to `demo-1`, and an identifier set with no contacts resolves to
nothing. -/
theorem c7_lookup_first_match_witness :
    lookupEntity seedState.entities
      { gov_name := none, business_name := none, phones := ["+14435550123"],
        emails := [], handles := [], websites := [] } = some "demo-1" ∧
    lookupEntity seedState.entities
      { gov_name := none, business_name := none, phones := [],
        emails := [], handles := [], websites := [] } = none := by
  constructor
  · exact ((c7_lookup_first_match seedState.entities _).2.2 "demo-1").mpr
      ⟨[], seedEntity, [], rfl, rfl,
        Or.inl ⟨"+14435550123", by simp, by simp [seedEntity]⟩,
        by intro x hx; cases hx⟩
  · exact (c7_lookup_first_match seedState.entities _).2.1.mpr
      (by
        intro e he hs
        rcases hs with ⟨p, hp, _⟩ | ⟨m, hm, _⟩
        · cases hp
        · cases hm)

/-! ## Claim C4: the recent-entities listing -/

/-- An entity has a positive visible-report count exactly when some report of
that entity has status `published` or `disputed`. -/
theorem countVisible_pos_iff (rs : List Report) (eid : String) :
    0 < countVisible rs eid ↔
      ∃ r ∈ rs, r.entity_id = eid ∧ (r.status = "published" ∨ r.status = "disputed") := by
  rw [countVisible, ← List.countP_eq_length_filter, List.countP_pos_iff]
  simp

/-- C4: the recent-entities listing includes an entity if and only if it has
at least one report with status `published` or `disputed`, and the
`report_count` shown for an included entity equals the number of that
entity's reports with status `published` or `disputed`. -/
theorem c4_recent_entities (s : AppState) (e : Entity) (he : e ∈ s.entities) :
    ((∃ item ∈ recent_entities s, item.id = e.id) ↔
      ∃ r ∈ s.reports, r.entity_id = e.id ∧
        (r.status = "published" ∨ r.status = "disputed")) ∧
    (∀ item ∈ recent_entities s, item.id = e.id →
      item.report_count =
        (s.reports.filter (fun r => r.entity_id == e.id
            && (r.status == "published" || r.status == "disputed"))).length) := by
  constructor
  · constructor
    · rintro ⟨item, hitem, hid⟩
      simp only [recent_entities] at hitem
      rcases List.mem_filterMap.mp hitem with ⟨a, _, hfa⟩
      split at hfa
      · cases hfa
      · rename_i hc
        have hitem_eq := Option.some.inj hfa
        have hcount : countVisible s.reports a.id ≠ 0 := by
          intro h0
          exact hc (by simp [h0])
        have haid : a.id = e.id := by rw [← hid, ← hitem_eq]
        rw [haid] at hcount
        exact (countVisible_pos_iff s.reports e.id).mp (Nat.pos_of_ne_zero hcount)
    · intro hr
      have hpos := (countVisible_pos_iff s.reports e.id).mpr hr
      have hc : (countVisible s.reports e.id == 0) = false := by
        simp [Nat.pos_iff_ne_zero.mp hpos]
      refine ⟨{ id := e.id, display_name := e.display_name,
                top_identifier := topIdentifierOf e, state := e.state, city := e.city,
                report_count := countVisible s.reports e.id, status := "published" },
              ?_, rfl⟩
      simp only [recent_entities]
      apply List.mem_filterMap.mpr
      exact ⟨e, he, by simp [hc]⟩
  · intro item hitem hid
    simp only [recent_entities] at hitem
    rcases List.mem_filterMap.mp hitem with ⟨a, _, hfa⟩
    split at hfa
    · cases hfa
    · have hitem_eq := Option.some.inj hfa
      have haid : a.id = e.id := by rw [← hid, ← hitem_eq]
      rw [← hitem_eq]
      show countVisible s.reports a.id = _
      rw [haid, countVisible]

/-- Witness for C4 at the seeded store: the seed entity is listed (it has a
published report) and its shown count is the visible-report count. -/
theorem c4_recent_entities_witness :
    ((∃ item ∈ recent_entities seedState, item.id = seedEntity.id) ↔
      ∃ r ∈ seedState.reports, r.entity_id = seedEntity.id ∧
        (r.status = "published" ∨ r.status = "disputed")) ∧
    (∀ item ∈ recent_entities seedState, item.id = seedEntity.id →
      item.report_count =
        (seedState.reports.filter (fun r => r.entity_id == seedEntity.id
            && (r.status == "published" || r.status == "disputed"))).length) :=
  c4_recent_entities seedState seedEntity (by simp [seedState])

/-! ## Claim C2: publish -/

/-- C2: `publish(report_id)` fails `NotFoundError` when the report id is
unknown; otherwise it sets that report's status to `published`
unconditionally, recomputes the owning entity's `report_count` as the number
of that entity's reports whose status is `published`, and leaves all other
reports and entities unchanged. -/
theorem c2_publish_report (s : AppState) (rid : String) :
    (s.reports.find? (fun x => x.id == rid) = none →
      publish_report s rid = .error (.notFound "report not found")) ∧
    (∀ r, s.reports.find? (fun x => x.id == rid) = some r →
      ∃ s', publish_report s rid = .ok (s', "published") ∧
        s'.reports.length = s.reports.length ∧
        (∀ i rr, s.reports.get? i = some rr →
          s'.reports.get? i =
            some (if rr.id = rid then { rr with status := "published" } else rr)) ∧
        s'.entities.length = s.entities.length ∧
        (∀ i a, s.entities.get? i = some a →
          s'.entities.get? i = some
            (if a.id = r.entity_id then
              { a with
                  report_count :=
                    some ((s'.reports.filter (fun x => x.entity_id == a.id
                        && x.status == "published")).length) }
             else a))) := by
  constructor
  · intro h
    simp [publish_report, h]
  · intro r h
    rcases hfe : s.entities.find? (fun e => e.id == r.entity_id) with _ | e0
    · refine ⟨⟨s.entities, s.reports.map (fun rr =>
          if rr.id == rid then { rr with status := "published" } else rr)⟩,
        ?_, by simp, ?_, by simp, ?_⟩
      · simp [publish_report, h, hfe]
      · intro i rr hrr
        rw [List.get?_map, hrr, Option.map_some']
        by_cases hc : rr.id = rid
        · simp [hc]
        · simp [hc]
      · intro i a ha
        have hmem : a ∈ s.entities := List.get?_mem ha
        have hne : ¬ a.id = r.entity_id := by
          have := List.find?_eq_none.mp hfe a hmem
          simpa using this
        rw [if_neg hne]
        exact ha
    · refine ⟨⟨s.entities.map (fun e =>
          if e.id == r.entity_id then
            { e with report_count := some (countPublished
                (s.reports.map (fun rr =>
                  if rr.id == rid then { rr with status := "published" } else rr)) e.id) }
          else e),
        s.reports.map (fun rr =>
          if rr.id == rid then { rr with status := "published" } else rr)⟩,
        ?_, by simp, ?_, by simp, ?_⟩
      · simp [publish_report, h, hfe]
      · intro i rr hrr
        rw [List.get?_map, hrr, Option.map_some']
        by_cases hc : rr.id = rid
        · simp [hc]
        · simp [hc]
      · intro i a ha
        rw [List.get?_map, ha, Option.map_some']
        by_cases hc : a.id = r.entity_id
        · simp only [hc, if_pos, beq_self_eq_true, if_true]
          rfl
        · simp [hc]

/-- Witness for C2: at the seeded store, publishing an unknown id fails with
not-found, and publishing the seed report succeeds with the stated effect. -/
theorem c2_publish_report_witness :
    publish_report seedState "missing" = .error (.notFound "report not found") ∧
    ∃ s', publish_report seedState "seed-report" = .ok (s', "published") ∧
      s'.reports.length = seedState.reports.length ∧
      (∀ i rr, seedState.reports.get? i = some rr →
        s'.reports.get? i =
          some (if rr.id = "seed-report" then { rr with status := "published" } else rr)) ∧
      s'.entities.length = seedState.entities.length ∧
      (∀ i a, seedState.entities.get? i = some a →
        s'.entities.get? i = some
          (if a.id = seedReport.entity_id then
            { a with
                report_count :=
                  some ((s'.reports.filter (fun x => x.entity_id == a.id
                      && x.status == "published")).length) }
           else a)) :=
  ⟨(c2_publish_report seedState "missing").1 rfl,
   (c2_publish_report seedState "seed-report").2 seedReport rfl⟩

/-! ## Claim C6: publish is idempotent -/

/-- C6: for a known report id, publishing twice succeeds both times, returns
status `published` both times, and the second call leaves the store exactly
in the state the first call produced. -/
theorem c6_publish_idempotent (s : AppState) (rid : String) (r : Report)
    (h : s.reports.find? (fun x => x.id == rid) = some r) :
    ∃ s1, publish_report s rid = .ok (s1, "published") ∧
      publish_report s1 rid = .ok (s1, "published") := by
  have hrid : (r.id == rid) = true := by simpa using List.find?_some h
  have hfid : ∀ rr : Report,
      ((if rr.id == rid then { rr with status := "published" } else rr).id == rid)
        = (rr.id == rid) := by
    intro rr; by_cases hc : (rr.id == rid) = true <;> simp [hc]
  have hff : ∀ rr : Report, rr ∈ s.reports →
      (fun x => if x.id == rid then { x with status := "published" } else x)
        ((fun x => if x.id == rid then { x with status := "published" } else x) rr)
      = (fun x => if x.id == rid then { x with status := "published" } else x) rr := by
    intro rr _
    by_cases hc : (rr.id == rid) = true
    · simp [hc]
    · simp [hc]
  have hreports1 :
      ((s.reports.map (fun x => if x.id == rid then { x with status := "published" } else x)).map
          (fun x => if x.id == rid then { x with status := "published" } else x))
        = s.reports.map (fun x => if x.id == rid then { x with status := "published" } else x) := by
    rw [List.map_map]
    exact List.map_congr_left hff
  have hfind1 :
      (s.reports.map (fun x => if x.id == rid then { x with status := "published" } else x)).find?
          (fun x => x.id == rid)
        = some { r with status := "published" } := by
    rw [find?_map_self _ _ _ hfid, h, Option.map_some']
    rw [if_pos hrid]
  rcases hfe : s.entities.find? (fun e => e.id == r.entity_id) with _ | e0
  · refine ⟨⟨s.entities, s.reports.map (fun x =>
        if x.id == rid then { x with status := "published" } else x)⟩, ?_, ?_⟩
    · simp [publish_report, h, hfe]
    · simp only [publish_report, hfind1, hfe, hreports1]
  · refine ⟨⟨s.entities.map (fun e =>
        if e.id == r.entity_id then
          { e with report_count := some (countPublished
              (s.reports.map (fun x =>
                if x.id == rid then { x with status := "published" } else x)) e.id) }
        else e),
      s.reports.map (fun x =>
        if x.id == rid then { x with status := "published" } else x)⟩, ?_, ?_⟩
    · simp [publish_report, h, hfe]
    · have hgid : ∀ e : Entity,
          ((if e.id == r.entity_id then
            { e with report_count := some (countPublished
                (s.reports.map (fun x =>
                  if x.id == rid then { x with status := "published" } else x)) e.id) }
          else e).id == r.entity_id) = (e.id == r.entity_id) := by
        intro e; by_cases hc : (e.id == r.entity_id) = true <;> simp [hc]
      have hfind2 :
          (s.entities.map (fun e =>
            if e.id == r.entity_id then
              { e with report_count := some (countPublished
                  (s.reports.map (fun x =>
                    if x.id == rid then { x with status := "published" } else x)) e.id) }
            else e)).find? (fun e => e.id == r.entity_id)
          = some (if e0.id == r.entity_id then
              { e0 with report_count := some (countPublished
                  (s.reports.map (fun x =>
                    if x.id == rid then { x with status := "published" } else x)) e0.id) }
            else e0) := by
        rw [find?_map_self _ _ _ hgid, hfe, Option.map_some']
      have hgg :
          ((s.entities.map (fun e =>
            if e.id == r.entity_id then
              { e with report_count := some (countPublished
                  (s.reports.map (fun x =>
                    if x.id == rid then { x with status := "published" } else x)) e.id) }
            else e)).map (fun e =>
            if e.id == r.entity_id then
              { e with report_count := some (countPublished
                  (s.reports.map (fun x =>
                    if x.id == rid then { x with status := "published" } else x)) e.id) }
            else e))
          = s.entities.map (fun e =>
            if e.id == r.entity_id then
              { e with report_count := some (countPublished
                  (s.reports.map (fun x =>
                    if x.id == rid then { x with status := "published" } else x)) e.id) }
            else e) := by
        rw [List.map_map]
        refine List.map_congr_left (fun e _ => ?_)
        by_cases hc : (e.id == r.entity_id) = true
        · have he' : e.id = r.entity_id := by simpa using hc
          simp [he']
        · have he' : ¬ e.id = r.entity_id := by simpa using hc
          simp [he']
      simp only [publish_report, hfind1, hfind2, hreports1, hgg]

/-- Witness for C6 at the seeded store and the seed report. -/
theorem c6_publish_idempotent_witness :
    ∃ s1, publish_report seedState "seed-report" = .ok (s1, "published") ∧
      publish_report s1 "seed-report" = .ok (s1, "published") :=
  c6_publish_idempotent seedState "seed-report" seedReport rfl

/-! ## Claim C3: submission validation -/

/-- Spec-level (amended) condition under which `create_report` rejects a
submission: digital mode without a truthy `scammer_origin` and without a
truthy `unknown`; in-person mode where any of `city`, `state`, `country` is
absent or falsy (Python truthiness: absent, null, false, 0, empty string,
empty array, empty object); or an unrecognized mode. -/
def badLocation (p : ReportCreate) : Prop :=
  (p.incident_mode = "digital"
    ∧ truthyOpt (getKey p.incident_location "scammer_origin") = false
    ∧ truthyOpt (getKey p.incident_location "unknown") = false)
  ∨ (p.incident_mode = "in_person"
    ∧ ¬(truthyOpt (getKey p.incident_location "city") = true
        ∧ truthyOpt (getKey p.incident_location "state") = true
        ∧ truthyOpt (getKey p.incident_location "country") = true))
  ∨ (p.incident_mode ≠ "digital" ∧ p.incident_mode ≠ "in_person")

/-- The location check returns no error exactly when `badLocation` fails. -/
theorem locationError_none_iff (p : ReportCreate) :
    locationError p = none ↔ ¬ badLocation p := by
  by_cases h1 : p.incident_mode = "digital"
  · cases ha : truthyOpt (getKey p.incident_location "scammer_origin") <;>
      cases hb : truthyOpt (getKey p.incident_location "unknown") <;>
        simp [locationError, badLocation, h1, ha, hb]
  · by_cases h2 : p.incident_mode = "in_person"
    · cases ha : truthyOpt (getKey p.incident_location "city") <;>
        cases hb : truthyOpt (getKey p.incident_location "state") <;>
          cases hc : truthyOpt (getKey p.incident_location "country") <;>
            simp [locationError, badLocation, h1, h2, ha, hb, hc]
    · simp [locationError, badLocation, h1, h2]

/-- When `badLocation` holds, the location check produces a validation
error. -/
theorem locationError_some (p : ReportCreate) (h : badLocation p) :
    ∃ msg, locationError p = some (.validation msg) := by
  by_cases h1 : p.incident_mode = "digital"
  · cases ha : truthyOpt (getKey p.incident_location "scammer_origin") <;>
      cases hb : truthyOpt (getKey p.incident_location "unknown") <;>
        simp [locationError, badLocation, h1, ha, hb] at h ⊢
  · by_cases h2 : p.incident_mode = "in_person"
    · cases ha : truthyOpt (getKey p.incident_location "city") <;>
        cases hb : truthyOpt (getKey p.incident_location "state") <;>
          cases hc : truthyOpt (getKey p.incident_location "country") <;>
            simp [locationError, badLocation, h1, h2, ha, hb, hc] at h ⊢
    · simp [locationError, badLocation, h1, h2]

/-- C3 (amended): `create_report` fails with a `ValidationError` exactly
under `badLocation` — digital mode requires a truthy `scammer_origin` or a
truthy `unknown`, in-person mode requires truthy `city`, `state` and
`country` (present and non-falsy, per Python truthiness), any other mode is
rejected — and otherwise inserts exactly one new report with status
`pending` and returns its id. -/
theorem c3_submit_validation (s : AppState) (p : ReportCreate) (eid rid now : String) :
    (badLocation p → ∃ msg, create_report s p eid rid now = .error (.validation msg)) ∧
    (¬ badLocation p → ∃ s' mid, create_report s p eid rid now = .ok (s', rid, mid) ∧
      ∃ newR, s'.reports = s.reports ++ [newR] ∧ newR.id = rid ∧ newR.status = "pending") := by
  constructor
  · intro hbad
    rcases locationError_some p hbad with ⟨msg, hmsg⟩
    exact ⟨msg, by simp [create_report, hmsg]⟩
  · intro hgood
    have hnone : locationError p = none := (locationError_none_iff p).mpr hgood
    rcases hl : lookupEntity s.entities p.identifiers with _ | i
    · exact ⟨{ entities := s.entities ++ [mkNewEntity p eid],
               reports := s.reports ++ [mkReport p eid rid now] }, eid,
             by simp [create_report, hnone, hl],
             mkReport p eid rid now, rfl, rfl, rfl⟩
    · exact ⟨{ entities := s.entities,
               reports := s.reports ++ [mkReport p i rid now] }, i,
             by simp [create_report, hnone, hl],
             mkReport p i rid now, rfl, rfl, rfl⟩

/-- A digital-mode payload with an empty location: rejected, as C3 states. -/
def c3badPayload : ReportCreate :=
  { identifiers := { gov_name := none, business_name := none, phones := [],
                     emails := [], handles := [], websites := [] }
    category := "Non-delivery"
    narrative := "Paid for a logo design online and the seller vanished without delivering."
    amount_cents := none
    currency := "USD"
    incident_date := none
    incident_mode := "digital"
    incident_location := []
    reporter_public_anonymous := true
    reporter_email := none }

/-- An in-person payload with non-empty city, state and country: accepted. -/
def c3goodPayload : ReportCreate :=
  { identifiers := { gov_name := none, business_name := none, phones := [],
                     emails := [], handles := [], websites := [] }
    category := "Overcharge"
    narrative := "A door-to-door repair crew charged for work that was never performed."
    amount_cents := some 120000
    currency := "USD"
    incident_date := some "2025-09-01"
    incident_mode := "in_person"
    incident_location := [("city", .str "Baltimore"), ("state", .str "MD"),
                          ("country", .str "US")]
    reporter_public_anonymous := true
    reporter_email := none }

/-- Witness for C3: the empty digital location is rejected, and the fully
specified in-person location is accepted with a pending report inserted. -/
theorem c3_submit_validation_witness :
    (∃ msg, create_report seedState c3badPayload "w-e1" "w-r1" "w-t1"
        = .error (.validation msg)) ∧
    (∃ s' mid, create_report seedState c3goodPayload "w-e2" "w-r2" "w-t2"
        = .ok (s', "w-r2", mid) ∧
      ∃ newR, s'.reports = seedState.reports ++ [newR] ∧ newR.id = "w-r2" ∧
        newR.status = "pending") :=
  ⟨(c3_submit_validation seedState c3badPayload "w-e1" "w-r1" "w-t1").1
      (Or.inl ⟨rfl, rfl, rfl⟩),
   (c3_submit_validation seedState c3goodPayload "w-e2" "w-r2" "w-t2").2
      (by
        rintro (⟨hm, _⟩ | ⟨_, hc⟩ | ⟨_, hm⟩)
        · exact absurd hm (by decide)
        · exact hc ⟨rfl, rfl, rfl⟩
        · exact hm rfl)⟩

/-- An in-person payload whose `city`, `state` and `country` keys are all
present, but `city` is the empty string (falsy in Python). -/
def c3cexPayload : ReportCreate :=
  { identifiers := { gov_name := none, business_name := none, phones := [],
                     emails := [], handles := [], websites := [] }
    category := "Overcharge"
    narrative := "The contractor billed twice for the same in-person service call visit."
    amount_cents := none
    currency := "USD"
    incident_date := none
    incident_mode := "in_person"
    incident_location := [("city", .str ""), ("state", .str "MD"), ("country", .str "US")]
    reporter_public_anonymous := true
    reporter_email := none }

/-- Counterexample to C3 as stated: an in-person payload in which none of
`city`, `state`, `country` is absent (all three keys are present), so the
claim says the submission is inserted with status `pending`; the code
rejects it with a `ValidationError` because the empty-string `city` is
falsy. -/
theorem c3_counterexample :
    c3cexPayload.incident_mode = "in_person" ∧
    (getKey c3cexPayload.incident_location "city").isSome = true ∧
    (getKey c3cexPayload.incident_location "state").isSome = true ∧
    (getKey c3cexPayload.incident_location "country").isSome = true ∧
    create_report seedState c3cexPayload "cex-e" "cex-r" "cex-t"
      = .error (.validation "For in-person incidents, city/state/country are required.") :=
  ⟨rfl, rfl, rfl, rfl, rfl⟩

/-! ## Claim C5: repeat submissions resolve to the same entity -/

/-- The match test only looks at the submitted phones and emails. -/
theorem matchesEntity_congr (ids1 ids2 : Identifiers)
    (hphones : ids1.phones = ids2.phones) (hemails : ids1.emails = ids2.emails)
    (e : Entity) : matchesEntity ids2 e = matchesEntity ids1 e := by
  simp [matchesEntity, ← hphones, ← hemails]

/-- Lookup only depends on the submitted phones and emails. -/
theorem lookupEntity_congr (ids1 ids2 : Identifiers)
    (hphones : ids1.phones = ids2.phones) (hemails : ids1.emails = ids2.emails)
    (es : List Entity) : lookupEntity es ids2 = lookupEntity es ids1 := by
  unfold lookupEntity
  have : (fun e => matchesEntity ids2 e) = (fun e => matchesEntity ids1 e) :=
    funext (matchesEntity_congr ids1 ids2 hphones hemails)
  rw [this]

/-- C5 (amended): two valid submissions made in succession whose identifiers
carry identical phones lists containing some phone P and identical emails
lists resolve to the same entity id: the second submission matches the
entity the first one matched or created, rather than creating a second
one. -/
theorem c5_same_identifiers_same_entity (s : AppState) (p1 p2 : ReportCreate)
    (P : String) (hP : P ∈ p1.identifiers.phones)
    (hphones : p1.identifiers.phones = p2.identifiers.phones)
    (hemails : p1.identifiers.emails = p2.identifiers.emails)
    (e1 r1 n1 e2 r2 n2 : String) (s1 : AppState) (rid1 mid1 : String)
    (h1 : create_report s p1 e1 r1 n1 = .ok (s1, rid1, mid1))
    (s2 : AppState) (rid2 mid2 : String)
    (h2 : create_report s1 p2 e2 r2 n2 = .ok (s2, rid2, mid2)) :
    mid1 = mid2 := by
  rcases hloc1 : locationError p1 with _ | err1
  swap
  · simp [create_report, hloc1] at h1
  rcases hloc2 : locationError p2 with _ | err2
  swap
  · simp [create_report, hloc2] at h2
  rcases hl : lookupEntity s.entities p1.identifiers with _ | i
  · simp [create_report, hloc1, hl] at h1
    obtain ⟨hs1, _, hmid1⟩ := h1
    have hmatch : matchesEntity p1.identifiers (mkNewEntity p1 e1) = true := by
      simp [matchesEntity, mkNewEntity, List.any_eq_true]
      exact Or.inl ⟨P, hP⟩
    have hid : (mkNewEntity p1 e1).id = e1 := rfl
    have hl2 : lookupEntity s1.entities p2.identifiers = some e1 := by
      rw [← hs1]
      rw [lookupEntity_congr p1.identifiers p2.identifiers hphones hemails]
      unfold lookupEntity at hl ⊢
      rw [List.find?_append, Option.map_eq_none'.mp hl]
      simp [List.find?_cons, hmatch, hid]
    simp [create_report, hloc2, hl2] at h2
    obtain ⟨_, _, hmid2⟩ := h2
    rw [← hmid1, ← hmid2]
  · simp [create_report, hloc1, hl] at h1
    obtain ⟨hs1, _, hmid1⟩ := h1
    have hl2 : lookupEntity s1.entities p2.identifiers = some i := by
      rw [← hs1]
      rw [lookupEntity_congr p1.identifiers p2.identifiers hphones hemails]
      exact hl
    simp [create_report, hloc2, hl2] at h2
    obtain ⟨_, _, hmid2⟩ := h2
    rw [← hmid1, ← hmid2]

/-- A digital payload reporting two phone numbers. -/
def c5payloadA : ReportCreate :=
  { identifiers := { gov_name := none, business_name := none,
                     phones := ["+15550000001", "+15550000002"],
                     emails := [], handles := [], websites := [] }
    category := "Phishing"
    narrative := "Caller used two numbers in rotation to demand gift card payments."
    amount_cents := none
    currency := "USD"
    incident_date := none
    incident_mode := "digital"
    incident_location := [("scammer_origin", .str "phone")]
    reporter_public_anonymous := true
    reporter_email := none }

/-- A digital payload reporting only the second of the two numbers. -/
def c5payloadB : ReportCreate :=
  { identifiers := { gov_name := none, business_name := none,
                     phones := ["+15550000002"],
                     emails := [], handles := [], websites := [] }
    category := "Phishing"
    narrative := "The same caller contacted me again from the second rotation number."
    amount_cents := none
    currency := "USD"
    incident_date := none
    incident_mode := "digital"
    incident_location := [("scammer_origin", .str "phone")]
    reporter_public_anonymous := true
    reporter_email := none }

/-- A store holding two entities, the first known by the first number only,
the second known by the second number only. -/
def c5cexState : AppState :=
  { entities :=
      [{ id := "cex-ent-1", display_name := "First Caller", type := "person",
         top_identifier := none, phones := ["+15550000001"], emails := [],
         state := none, city := none, report_count := none },
       { id := "cex-ent-2", display_name := "Second Caller", type := "person",
         top_identifier := none, phones := ["+15550000002"], emails := [],
         state := none, city := none, report_count := none }]
    reports := [] }

/-- The pair of entity ids two successive submissions resolve to. -/
def resolvedPair (s : AppState) (p q : ReportCreate) : Option (String × String) :=
  match create_report s p "c5-e1" "c5-r1" "c5-t1" with
  | .error _ => none
  | .ok (s1, _, m1) =>
    match create_report s1 q "c5-e2" "c5-r2" "c5-t2" with
    | .error _ => none
    | .ok (_, _, m2) => some (m1, m2)

/-- Counterexample to C5 as stated: both payloads are valid and both phones
lists contain `+15550000002`, yet the first submission resolves to
`cex-ent-1` (its other phone matches the earlier entity first) while the
second resolves to `cex-ent-2` — two different entity ids. -/
theorem c5_counterexample :
    "+15550000002" ∈ c5payloadA.identifiers.phones ∧
    "+15550000002" ∈ c5payloadB.identifiers.phones ∧
    resolvedPair c5cexState c5payloadA c5payloadB = some ("cex-ent-1", "cex-ent-2") ∧
    ("cex-ent-1" : String) ≠ "cex-ent-2" :=
  ⟨by decide, by decide, rfl, by decide⟩

/-- Witness for C5 (amended) at the seeded store: submitting identical
identifiers twice resolves both reports to the same (freshly created)
entity id `c5-e1`. -/
theorem c5_same_identifiers_same_entity_witness :
    resolvedPair seedState c5payloadB c5payloadB = some ("c5-e1", "c5-e1") ∧
    ("c5-e1" : String) = "c5-e1" :=
  ⟨rfl,
   c5_same_identifiers_same_entity seedState c5payloadB c5payloadB
     "+15550000002" (by decide) rfl rfl
     "c5-e1" "c5-r1" "c5-t1" "c5-e2" "c5-r2" "c5-t2"
     { entities := seedState.entities ++ [mkNewEntity c5payloadB "c5-e1"],
       reports := seedState.reports ++ [mkReport c5payloadB "c5-e1" "c5-r1" "c5-t1"] }
     "c5-r1" "c5-e1" rfl
     { entities := seedState.entities ++ [mkNewEntity c5payloadB "c5-e1"],
       reports := (seedState.reports ++ [mkReport c5payloadB "c5-e1" "c5-r1" "c5-t1"])
         ++ [mkReport c5payloadB "c5-e1" "c5-r2" "c5-t2"] }
     "c5-r2" "c5-e1" rfl⟩

/-! ## Claim C8: fields of a newly created entity -/

/-- C8 (amended): when a valid submission matches no existing entity, the
entity created for it has `display_name` equal to `business_name` when that
is present and non-empty, else `gov_name` when that is present and
non-empty, else `Unknown`; `type` is `business` exactly when `business_name`
is present and non-empty, else `person`; and `state`/`city` are read from
the top-level `state` and `city` keys of `incident_location` (not from
`scammer_origin`), with the submitted phones and emails copied across. -/
theorem c8_new_entity_fields (s : AppState) (p : ReportCreate) (eid rid now : String)
    (hval : locationError p = none)
    (hnomatch : lookupEntity s.entities p.identifiers = none) :
    ∃ e, create_report s p eid rid now =
        .ok ({ entities := s.entities ++ [e],
               reports := s.reports ++ [mkReport p eid rid now] }, rid, eid) ∧
      e.id = eid ∧
      (∀ b, p.identifiers.business_name = some b → b ≠ "" →
        e.display_name = b ∧ e.type = "business") ∧
      ((p.identifiers.business_name = none ∨ p.identifiers.business_name = some "") →
        e.type = "person" ∧
        (∀ g, p.identifiers.gov_name = some g → g ≠ "" → e.display_name = g) ∧
        ((p.identifiers.gov_name = none ∨ p.identifiers.gov_name = some "") →
          e.display_name = "Unknown")) ∧
      e.state = getKey p.incident_location "state" ∧
      e.city = getKey p.incident_location "city" ∧
      e.phones = p.identifiers.phones ∧
      e.emails = p.identifiers.emails := by
  refine ⟨mkNewEntity p eid, by simp [create_report, hval, hnomatch], rfl, ?_, ?_, rfl, rfl, rfl, rfl⟩
  · intro b hb hbne
    constructor
    · show pyOrStr p.identifiers.business_name (pyOrStr p.identifiers.gov_name "Unknown") = b
      simp [pyOrStr, hb, hbne]
    · show (if strTruthy p.identifiers.business_name then "business" else "person") = "business"
      simp [strTruthy, hb, hbne]
  · intro hb
    have hbt : strTruthy p.identifiers.business_name = false := by
      rcases hb with hb | hb <;> simp [strTruthy, hb]
    have hbor : ∀ d, pyOrStr p.identifiers.business_name d = d := by
      intro d
      rcases hb with hb | hb <;> simp [pyOrStr, hb]
    refine ⟨?_, ?_, ?_⟩
    · show (if strTruthy p.identifiers.business_name then "business" else "person") = "person"
      rw [hbt]
      rfl
    · intro g hg hgne
      show pyOrStr p.identifiers.business_name (pyOrStr p.identifiers.gov_name "Unknown") = g
      rw [hbor]
      simp [pyOrStr, hg, hgne]
    · intro hg
      show pyOrStr p.identifiers.business_name (pyOrStr p.identifiers.gov_name "Unknown") = "Unknown"
      rw [hbor]
      rcases hg with hg | hg <;> simp [pyOrStr, hg]

/-- A valid digital payload with a non-empty business name and contacts that
match no seeded entity. -/
def c8goodPayload : ReportCreate :=
  { identifiers := { gov_name := none, business_name := some "Acme Paving LLC",
                     phones := ["+15553334444"],
                     emails := [], handles := [], websites := [] }
    category := "Non-delivery"
    narrative := "Paid a deposit for driveway paving and the crew never showed up again."
    amount_cents := some 250000
    currency := "USD"
    incident_date := some "2025-09-15"
    incident_mode := "digital"
    incident_location := [("scammer_origin", .str "website"),
                          ("state", .str "PA"), ("city", .str "Erie")]
    reporter_public_anonymous := false
    reporter_email := none }

/-- Witness for C8 (amended) at the seeded store with a business payload. -/
theorem c8_new_entity_fields_witness :
    ∃ e, create_report seedState c8goodPayload "w8-e" "w8-r" "w8-t" =
        .ok ({ entities := seedState.entities ++ [e],
               reports := seedState.reports ++ [mkReport c8goodPayload "w8-e" "w8-r" "w8-t"] },
             "w8-r", "w8-e") ∧
      e.id = "w8-e" ∧
      (∀ b, c8goodPayload.identifiers.business_name = some b → b ≠ "" →
        e.display_name = b ∧ e.type = "business") ∧
      ((c8goodPayload.identifiers.business_name = none ∨
          c8goodPayload.identifiers.business_name = some "") →
        e.type = "person" ∧
        (∀ g, c8goodPayload.identifiers.gov_name = some g → g ≠ "" → e.display_name = g) ∧
        ((c8goodPayload.identifiers.gov_name = none ∨
            c8goodPayload.identifiers.gov_name = some "") →
          e.display_name = "Unknown")) ∧
      e.state = getKey c8goodPayload.incident_location "state" ∧
      e.city = getKey c8goodPayload.incident_location "city" ∧
      e.phones = c8goodPayload.identifiers.phones ∧
      e.emails = c8goodPayload.identifiers.emails :=
  c8_new_entity_fields seedState c8goodPayload "w8-e" "w8-r" "w8-t" rfl (by rfl)

/-- A payload whose `business_name` is present but is the empty string, with
a non-empty `gov_name`. -/
def c8cexPayload : ReportCreate :=
  { identifiers := { gov_name := some "Jordan Example", business_name := some "",
                     phones := ["+15557777777"],
                     emails := [], handles := [], websites := [] }
    category := "Impersonation"
    narrative := "Caller impersonated a tax officer and demanded immediate wire payment."
    amount_cents := none
    currency := "USD"
    incident_date := none
    incident_mode := "digital"
    incident_location := [("scammer_origin", .str "phone")]
    reporter_public_anonymous := true
    reporter_email := none }

/-- Counterexample to C8 as stated: `business_name` is present (the empty
string), so the claim says the new entity is named by it and typed
`business`; the code treats the empty string as absent and derives
`display_name` from `gov_name` with type `person`. -/
theorem c8_counterexample :
    c8cexPayload.identifiers.business_name = some "" ∧
    create_report seedState c8cexPayload "c8-e" "c8-r" "c8-t" =
      .ok ({ entities := seedState.entities ++ [mkNewEntity c8cexPayload "c8-e"],
             reports := seedState.reports ++ [mkReport c8cexPayload "c8-e" "c8-r" "c8-t"] },
           "c8-r", "c8-e") ∧
    (mkNewEntity c8cexPayload "c8-e").display_name = "Jordan Example" ∧
    (mkNewEntity c8cexPayload "c8-e").type = "person" ∧
    ("Jordan Example" : String) ≠ "" ∧
    ("person" : String) ≠ "business" :=
  ⟨rfl, rfl, rfl, rfl, by decide, by decide⟩

/-! ## Claim C1: opening a dispute (Dispute Manager, modelled from the spec) -/

/-- C1: for a known report id, `open` returns the new dispute id and inserts
a Dispute with status `open`, `report_id` the given report and `entity_id`
copied from the report, and forces the parent report's status to `disputed`
regardless of its prior status; for an unknown report id it fails with
`NotFoundError` and, returning an error, produces no new state. -/
theorem c1_open_dispute (s : AppState) (ds : List Dispute)
    (did rid contact text : String) (anon : Bool) (now : String) :
    (s.reports.find? (fun x => x.id == rid) = none →
      open_dispute s ds did rid contact text anon now
        = .error (.notFound "report not found")) ∧
    (∀ r, s.reports.find? (fun x => x.id == rid) = some r →
      ∃ s' d, open_dispute s ds did rid contact text anon now = .ok (s', ds ++ [d], did) ∧
        d.status = "open" ∧ d.entity_id = r.entity_id ∧ d.report_id = rid ∧ d.id = did ∧
        s'.entities = s.entities ∧
        s'.reports.length = s.reports.length ∧
        (∀ i rr, s.reports.get? i = some rr →
          s'.reports.get? i =
            some (if rr.id = rid then { rr with status := "disputed" } else rr))) := by
  constructor
  · intro h
    simp [open_dispute, h]
  · intro r h
    refine ⟨⟨s.entities, s.reports.map (fun rr =>
        if rr.id == rid then { rr with status := "disputed" } else rr)⟩,
      { id := did, report_id := rid, entity_id := r.entity_id, contact_email := contact,
        text := text.trim, public_anonymous := anon, status := "open", created_at := now },
      ?_, rfl, rfl, rfl, rfl, rfl, by simp, ?_⟩
    · simp [open_dispute, h]
    · intro i rr hrr
      rw [List.get?_map, hrr, Option.map_some']
      by_cases hc : rr.id = rid
      · simp [hc]
      · simp [hc]

/-- Witness for C1 at the seeded store: an unknown id fails not-found, and
disputing the seed report has the stated effect. -/
theorem c1_open_dispute_witness :
    open_dispute seedState [] "d1" "missing" "user@example.org"
        "The delivered website was in fact completed as agreed." true "t1"
      = .error (.notFound "report not found") ∧
    ∃ s' d, open_dispute seedState [] "d1" "seed-report" "user@example.org"
        "The delivered website was in fact completed as agreed." true "t1"
        = .ok (s', [] ++ [d], "d1") ∧
      d.status = "open" ∧ d.entity_id = seedReport.entity_id ∧
      d.report_id = "seed-report" ∧ d.id = "d1" ∧
      s'.entities = seedState.entities ∧
      s'.reports.length = seedState.reports.length ∧
      (∀ i rr, seedState.reports.get? i = some rr →
        s'.reports.get? i =
          some (if rr.id = "seed-report" then { rr with status := "disputed" } else rr)) :=
  ⟨(c1_open_dispute seedState [] "d1" "missing" "user@example.org"
      "The delivered website was in fact completed as agreed." true "t1").1 rfl,
   (c1_open_dispute seedState [] "d1" "seed-report" "user@example.org"
      "The delivered website was in fact completed as agreed." true "t1").2 seedReport rfl⟩

/-! ## Claims C9 and C10: invariants of reachable states -/

/-- A successful lookup returns the id of some stored entity. -/
theorem lookupEntity_some_mem (es : List Entity) (ids : Identifiers) (i : String)
    (h : lookupEntity es ids = some i) : ∃ e ∈ es, e.id = i := by
  rcases Option.map_eq_some'.mp h with ⟨e, hfind, hid⟩
  exact ⟨e, List.mem_of_find?_eq_some hfind, hid⟩

/-- Shape of a successful submission: either the resolver matched an
existing entity and only a pending report was appended, or a new entity and
a pending report referencing it were appended. -/
theorem create_report_ok_shape (s : AppState) (p : ReportCreate) (eid rid now : String)
    (s' : AppState) (rid' mid : String)
    (h : create_report s p eid rid now = .ok (s', rid', mid)) :
    (s'.entities = s.entities ∧ (∃ e ∈ s.entities, e.id = mid) ∧
       s'.reports = s.reports ++ [mkReport p mid rid now]) ∨
    (s'.entities = s.entities ++ [mkNewEntity p eid] ∧ mid = eid ∧
       s'.reports = s.reports ++ [mkReport p eid rid now]) := by
  rcases hloc : locationError p with _ | err
  swap
  · simp [create_report, hloc] at h
  rcases hl : lookupEntity s.entities p.identifiers with _ | i
  · right
    simp [create_report, hloc, hl] at h
    obtain ⟨hs, -, hm⟩ := h
    rw [← hs, ← hm]
    exact ⟨rfl, rfl, rfl⟩
  · left
    simp [create_report, hloc, hl] at h
    obtain ⟨hs, -, hm⟩ := h
    rw [← hs, ← hm]
    exact ⟨rfl, lookupEntity_some_mem s.entities p.identifiers i hl, rfl⟩

/-- Shape of a successful publish: the returned status is `published`, the
entities are rewritten by an id-preserving function, and the reports are
rewritten by a function that preserves `entity_id` and either keeps a
report's status or sets it to `published`. -/
theorem publish_report_ok_shape (s : AppState) (rid : String) (s' : AppState) (st : String)
    (h : publish_report s rid = .ok (s', st)) :
    st = "published" ∧
    (∃ g : Entity → Entity, (∀ e, (g e).id = e.id) ∧ s'.entities = s.entities.map g) ∧
    (∃ f : Report → Report, (∀ rr, (f rr).entity_id = rr.entity_id ∧
        ((f rr).status = rr.status ∨ (f rr).status = "published")) ∧
      s'.reports = s.reports.map f) := by
  rcases hfr : s.reports.find? (fun x => x.id == rid) with _ | r
  · simp [publish_report, hfr] at h
  rcases hfe : s.entities.find? (fun e => e.id == r.entity_id) with _ | e0 <;>
    simp only [publish_report, hfr, hfe] at h <;>
      rw [Except.ok.injEq, Prod.mk.injEq] at h <;> obtain ⟨hs, hst⟩ := h
  · refine ⟨hst.symm, ⟨id, fun e => rfl, by rw [← hs, List.map_id]⟩, ?_⟩
    refine ⟨fun rr => if rr.id == rid then { rr with status := "published" } else rr, ?_, by rw [← hs]⟩
    intro rr
    by_cases hc : (rr.id == rid) = true
    · simp [hc]
    · simp [hc]
  · refine ⟨hst.symm, ?_, ?_⟩
    · refine ⟨fun e => if e.id == r.entity_id then
        { e with report_count := some (countPublished
            (s.reports.map (fun rr =>
              if rr.id == rid then { rr with status := "published" } else rr)) e.id) }
        else e, ?_, by rw [← hs]⟩
      intro e
      by_cases hc : (e.id == r.entity_id) = true
      · simp [hc]
      · simp [hc]
    · refine ⟨fun rr => if rr.id == rid then { rr with status := "published" } else rr, ?_, by rw [← hs]⟩
      intro rr
      by_cases hc : (rr.id == rid) = true
      · simp [hc]
      · simp [hc]

/-- Shape of a successful dispute opening: entities untouched, reports
rewritten by a function that preserves `entity_id` and either keeps a
report's status or sets it to `disputed`. -/
theorem open_dispute_ok_shape (s : AppState) (ds : List Dispute)
    (did rid contact text : String) (anon : Bool) (now : String)
    (s' : AppState) (ds' : List Dispute) (ret : String)
    (h : open_dispute s ds did rid contact text anon now = .ok (s', ds', ret)) :
    s'.entities = s.entities ∧
    (∃ f : Report → Report, (∀ rr, (f rr).entity_id = rr.entity_id) ∧
      s'.reports = s.reports.map f) := by
  rcases hfr : s.reports.find? (fun x => x.id == rid) with _ | r
  · simp [open_dispute, hfr] at h
  simp only [open_dispute, hfr] at h
  rw [Except.ok.injEq, Prod.mk.injEq] at h
  obtain ⟨hs, -⟩ := h
  refine ⟨by rw [← hs], ?_⟩
  refine ⟨fun rr => if rr.id == rid then { rr with status := "disputed" } else rr, ?_, by rw [← hs]⟩
  intro rr
  by_cases hc : (rr.id == rid) = true
  · simp [hc]
  · simp [hc]

/-- A state transition of the service as implemented in src/app.py: a
successful report submission or a successful publish.  The read-only
endpoints change no state and failed requests raise before any mutation. -/
inductive StepSrc : AppState → AppState → Prop
  | submit {s s' : AppState} (p : ReportCreate) (eid rid now rid' mid : String)
      (h : create_report s p eid rid now = .ok (s', rid', mid)) : StepSrc s s'
  | publish {s s' : AppState} (rid st : String)
      (h : publish_report s rid = .ok (s', st)) : StepSrc s s'

/-- States reachable from the seeded store through the src/app.py
operations alone. -/
inductive ReachableSrc : AppState → Prop
  | init : ReachableSrc seedState
  | step {s t : AppState} : ReachableSrc s → StepSrc s t → ReachableSrc t

/-- A transition of the full system described by the spec: the src/app.py
operations plus the spec-modelled dispute opening (whose source is not
under src/). -/
inductive Step : AppState → AppState → Prop
  | src {s t : AppState} : StepSrc s t → Step s t
  | dispute {s s' : AppState} (ds : List Dispute) (did rid contact text : String)
      (anon : Bool) (now : String) (ds' : List Dispute) (ret : String)
      (h : open_dispute s ds did rid contact text anon now = .ok (s', ds', ret)) : Step s s'

/-- States reachable from the seeded store through the full operation set,
disputes included. -/
inductive Reachable : AppState → Prop
  | init : Reachable seedState
  | step {s t : AppState} : Reachable s → Step s t → Reachable t

/-- C9: in every state reachable from the seeded store by any sequence of
operations (submissions, publishes and spec-modelled dispute openings),
every stored report's `entity_id` is the id of some stored entity — reports
never dangle, and no operation deletes an entity. -/
theorem c9_reports_reference_entities (s : AppState) (h : Reachable s) :
    ∀ r ∈ s.reports, ∃ e ∈ s.entities, e.id = r.entity_id := by
  induction h with
  | init =>
    intro r hr
    rcases List.mem_singleton.mp hr with rfl
    exact ⟨seedEntity, List.mem_singleton.mpr rfl, rfl⟩
  | step _ hstep ih =>
    rename_i s t _
    intro r hr
    rcases hstep with ⟨hsrc⟩ | ⟨ds, did, rid, contact, text, anon, now, ds', ret, ho⟩
    · rcases hsrc with ⟨p, eid, rid, now, rid', mid, hc⟩ | ⟨rid, st, hp⟩
      · rcases create_report_ok_shape s p eid rid now t rid' mid hc with
          ⟨hent, ⟨e, he, heid⟩, hrep⟩ | ⟨hent, hmid, hrep⟩
        · rw [hrep] at hr
          rcases List.mem_append.mp hr with hold | hnew
          · rw [hent]
            exact ih r hold
          · rcases List.mem_singleton.mp hnew with rfl
            rw [hent]
            exact ⟨e, he, heid⟩
        · rw [hrep] at hr
          rcases List.mem_append.mp hr with hold | hnew
          · rcases ih r hold with ⟨e, he, heid⟩
            rw [hent]
            exact ⟨e, List.mem_append_left _ he, heid⟩
          · rcases List.mem_singleton.mp hnew with rfl
            rw [hent]
            exact ⟨mkNewEntity p eid, List.mem_append_right _ (List.mem_singleton.mpr rfl), rfl⟩
      · rcases publish_report_ok_shape s rid t st hp with ⟨-, ⟨g, hgid, hent⟩, ⟨f, hf, hrep⟩⟩
        rw [hrep] at hr
        rcases List.mem_map.mp hr with ⟨rr, hrr, rfl⟩
        rcases ih rr hrr with ⟨e, he, heid⟩
        rw [hent]
        exact ⟨g e, List.mem_map_of_mem g he, by rw [hgid e, heid, (hf rr).1]⟩
    · rcases open_dispute_ok_shape s ds did rid contact text anon now t ds' ret ho with
        ⟨hent, ⟨f, hf, hrep⟩⟩
      rw [hrep] at hr
      rcases List.mem_map.mp hr with ⟨rr, hrr, rfl⟩
      rcases ih rr hrr with ⟨e, he, heid⟩
      rw [hent]
      exact ⟨e, he, by rw [heid, hf rr]⟩

/-- Witness for C9: the invariant instantiated at the seeded store and its
seed report. -/
theorem c9_reports_reference_entities_witness :
    ∃ e ∈ seedState.entities, e.id = seedReport.entity_id :=
  c9_reports_reference_entities seedState Reachable.init seedReport
    (List.mem_singleton.mpr rfl)

/-- C10 (amended): in every state reachable from the seeded store through
the operations implemented in src/app.py (report submission and publish),
every stored report's status is `pending` or `published`; no operation in
src/app.py ever assigns the status `disputed`.  Over the program's full
operation set the unscoped claim fails: the dispute-opening operation
(described by the spec, absent from src/) assigns `disputed`. -/
theorem c10_status_pending_or_published (s : AppState) (h : ReachableSrc s) :
    ∀ r ∈ s.reports, r.status = "pending" ∨ r.status = "published" := by
  induction h with
  | init =>
    intro r hr
    rcases List.mem_singleton.mp hr with rfl
    exact Or.inr rfl
  | step _ hstep ih =>
    rename_i s t _
    intro r hr
    rcases hstep with ⟨p, eid, rid, now, rid', mid, hc⟩ | ⟨rid, st, hp⟩
    · rcases create_report_ok_shape s p eid rid now t rid' mid hc with
        ⟨-, -, hrep⟩ | ⟨-, -, hrep⟩ <;> rw [hrep] at hr <;>
        rcases List.mem_append.mp hr with hold | hnew
      · exact ih r hold
      · rcases List.mem_singleton.mp hnew with rfl
        exact Or.inl rfl
      · exact ih r hold
      · rcases List.mem_singleton.mp hnew with rfl
        exact Or.inl rfl
    · rcases publish_report_ok_shape s rid t st hp with ⟨-, -, ⟨f, hf, hrep⟩⟩
      rw [hrep] at hr
      rcases List.mem_map.mp hr with ⟨rr, hrr, rfl⟩
      rcases (hf rr).2 with hkeep | hpub
      · rw [hkeep]
        exact ih rr hrr
      · rw [hpub]
        exact Or.inr rfl

/-- Witness for C10: the invariant instantiated at the seeded store and its
seed report. -/
theorem c10_status_pending_or_published_witness :
    seedReport.status = "pending" ∨ seedReport.status = "published" :=
  c10_status_pending_or_published seedState ReachableSrc.init seedReport
    (List.mem_singleton.mpr rfl)

/-- Counterexample to C10 as stated: the claim quantifies over any sequence
of operations, but one dispute-opening operation applied to the seed state
reaches (in the full operation set `Reachable`, disputes included) a state
holding a report whose status is `disputed` — neither `pending` nor
`published`. -/
theorem c10_counterexample :
    Reachable { entities := seedState.entities,
                reports := [{ seedReport with status := "disputed" }] } ∧
    ({ seedReport with status := "disputed" } : Report) ∈
      ({ entities := seedState.entities,
         reports := [{ seedReport with status := "disputed" }] } : AppState).reports ∧
    ({ seedReport with status := "disputed" } : Report).status ≠ "pending" ∧
    ({ seedReport with status := "disputed" } : Report).status ≠ "published" :=
  ⟨Reachable.step Reachable.init
     (Step.dispute [] "cex-d1" "seed-report" "user@example.org"
        "The order was completed as agreed and this report is mistaken." true "cex-t1"
        ([] ++ [{ id := "cex-d1", report_id := "seed-report", entity_id := "demo-1",
                  contact_email := "user@example.org",
                  text := ("The order was completed as agreed and this report is mistaken." : String).trim,
                  public_anonymous := true, status := "open", created_at := "cex-t1" }])
        "cex-d1" (by rfl)),
   List.mem_singleton.mpr rfl, by decide, by decide⟩

end ScamLikely
